import Mathlib

/-!
Verification development for the seapopym kernel/template dataflow core and the
optimization metric layer.  The Python sources are embedded shallowly:

* xarray `DataArray` objects are records carrying an ordered list of named
  dimensions with their sizes, the coordinate values attached to those
  dimensions, metadata attributes, and the array values.  Values are indexed by
  a named-index function `(Dim -> Nat) -> Option Rat`: a value of `none` models a
  floating-point NaN, `some q` models the number q (real arithmetic is modelled
  over the rationals).  Indexing by dimension name rather than by position makes
  `transpose` a pure relabelling, exactly as in the xarray data model.
* xarray `Dataset` objects are records with coordinates and an ordered
  association list of named data variables.
* Fallible Python code returns `Except PyError`, with the Python exception
  class recorded in the `PyError` constructor.
* The uninitialized contents of `dask.array.empty` are modelled by an explicit
  buffer argument `Buf` threaded into template generation: two calls may see
  two different buffers, which is what "uninitialized values" means.
-/

namespace Seapopym

/-- The canonical coordinate labels of `seapopym.standard.labels.CoordinatesLabels`
(`functional_group`, `T`, `Y`, `X`, `Z`, `cohort`). All dimension names used by the
templates in the repository are drawn from this set. -/
inductive Dim where
  | functional_group
  | time
  | Y
  | X
  | Z
  | cohort
deriving DecidableEq, Repr

/-- Source `CoordinatesLabels.ordered`: the CF-convention order of the canonical axes. -/
def CoordinatesLabelsOrdered : List Dim :=
  [Dim.functional_group, Dim.time, Dim.Y, Dim.X, Dim.Z, Dim.cohort]

/-- Python exception classes that the embedded code can raise.  The
`missingStateError` class appears in the spec but in no source file; it is part
of the error type so that statements about the error class can be made. -/
inductive PyError where
  | valueError (msg : String)
  | typeError (msg : String)
  | keyError (msg : String)
  | missingStateError (msg : String)
deriving DecidableEq, Repr

/-- Association-list lookup used for both variable names (String keys) and
coordinate names (Dim keys); first binding wins, as in a Python dict. -/
def alookup {α β : Type} [DecidableEq α] (k : α) : List (α × β) → Option β
  | [] => none
  | p :: t => if p.1 = k then some p.2 else alookup k t

/-- Key list of an association list. -/
def akeys {α β : Type} (l : List (α × β)) : List α := l.map Prod.fst

/-- Metadata attributes (`attrs` dict of a DataArray). -/
abbrev Attrs := List (String × String)

/-- Python `dict.update` semantics (used by `DataArray.assign_attrs`): keys of
`new` override same-named keys of `old` in place, keys of `old` not in `new` are
kept, keys of `new` not in `old` are appended. -/
def attrsUpdate (old new : Attrs) : Attrs :=
  old.map (fun p => (p.1, ((alookup p.1 new).getD p.2))) ++
    new.filter (fun p => (alookup p.1 old).isNone)

/-- A named index: assigns a position to every dimension name.  Dimensions a
given array does not have are simply ignored by its value function. -/
abbrev Ix := Dim → Nat

/-- Uninitialized memory contents handed out by `dask.array.empty`. -/
abbrev Buf := Ix → Option ℚ

/-- Override one component of a named index. -/
def setDim (ix : Ix) (d : Dim) (v : Nat) : Ix :=
  fun e => if e = d then v else ix e

/-- Coordinate values along one axis. -/
abbrev Coord := List ℚ

/-- Shallow embedding of `xarray.DataArray`: ordered dimensions with sizes,
attached coordinates, metadata attributes, and values indexed by named index. -/
structure DataArray where
  sizes : List (Dim × Nat)
  coords : List (Dim × Coord)
  attrs : Attrs
  data : Ix → Option ℚ

/-- Shallow embedding of `xarray.Dataset`: coordinates plus an ordered
association list of named data variables. -/
structure Dataset where
  coords : List (Dim × Coord)
  vars : List (String × DataArray)

/-- The empty dataset. -/
def emptyDs : Dataset := { coords := [], vars := [] }

/-- Source `CoordinatesLabels.order_data` on the dimension list: keep exactly the
dimensions present in `l`, in the canonical CF order (this is
`transpose(*ordered(), missing_dims="ignore")` from `labels.py`). -/
def orderSizes (l : List (Dim × Nat)) : List (Dim × Nat) :=
  CoordinatesLabelsOrdered.filterMap (fun d => (alookup d l).map (fun n => (d, n)))

/-- Source `CoordinatesLabels.order_data` on a DataArray: a transpose only permutes the
dimension order; coordinates, attributes and (name-indexed) values are
unchanged. -/
def orderArr (a : DataArray) : DataArray :=
  { a with sizes := orderSizes a.sizes }

/-- Source `CoordinatesLabels.order_data` on a Dataset: transpose every variable. -/
def orderDataset (s : Dataset) : Dataset :=
  { s with vars := s.vars.map (fun p => (p.1, orderArr p.2)) }

/-- Strictly increasing check on coordinate values (monotonicity and
uniqueness in one condition). -/
def strictlyIncreasing : List ℚ → Bool
  | [] => true
  | [_] => true
  | a :: b :: t => decide (a < b) && strictlyIncreasing (b :: t)

/-- Modelled from the spec: `seapopym.standard.coordinate_authority` is not in
the sources; per the spec it "validates coordinate integrity (monotonicity,
uniqueness)" and otherwise returns the data unchanged.  A coordinate axis is
valid when its values are strictly increasing. -/
def coordsValid (coords : List (Dim × Coord)) : Bool :=
  coords.all (fun p => strictlyIncreasing p.2)

/-- Modelled from the spec: `coordinate_authority.ensure_coordinate_integrity`
raises on an invalid coordinate axis and returns the dataset unchanged
otherwise. -/
def ensure_coordinate_integrity (s : Dataset) : Except PyError Dataset :=
  if coordsValid s.coords then .ok s
  else .error (.valueError "Invalid coordinates in the state of the model.")

/-- First-wins union of coordinate mappings (xarray merge keeps the coordinates
of the first object on collision). -/
def unionCoords (a b : List (Dim × Coord)) : List (Dim × Coord) :=
  a ++ b.filter (fun p => (alookup p.1 a).isNone)

/-- Merge `first.merge(second, compat="override")`: variables of `first` win on name
collision, non-colliding variables of both are kept; same for coordinates. -/
def mergeOverride (first second : Dataset) : Dataset :=
  { coords := unionCoords first.coords second.coords,
    vars := first.vars ++ second.vars.filter (fun p => (alookup p.1 first.vars).isNone) }

/-- Source `Dataset.drop_vars` for one name. -/
def dropVar (s : Dataset) (n : String) : Dataset :=
  { s with vars := s.vars.filter (fun p => decide (¬ p.1 = n)) }

/-- The removal loop of `Kernel.run`: `for var in to_remove: if var in state:
state = state.drop_vars(var)` (the membership test only guards the drop, so this
is a plain iterated drop). -/
def dropVarsList (s : Dataset) (names : List String) : Dataset :=
  names.foldl dropVar s

/-- Constructor `xr.Dataset` over named arrays: collect the variables and the union of
their coordinates. -/
def datasetOfVars (l : List (String × DataArray)) : Dataset :=
  { coords := l.foldl (fun acc p => unionCoords acc p.2.coords) [],
    vars := l }

/-- Lookup `state[name]` on a data variable: KeyError when absent. -/
def Dataset.getVar (s : Dataset) (n : String) : Except PyError DataArray :=
  match alookup n s.vars with
  | some a => .ok a
  | none => .error (.keyError n)

/-- Attribute update on every binding of `n` in a variable list. -/
def mapAttrs (n : String) (a : Attrs) (l : List (String × DataArray)) :
    List (String × DataArray) :=
  l.map (fun p => if p.1 = n then (p.1, { p.2 with attrs := attrsUpdate p.2.attrs a }) else p)

/-- Assignment `results[name] = results[name].assign_attrs(new)`: update the attributes of
every binding of `n` (dataset keys are unique, so at most one in practice). -/
def setVarAttrs (s : Dataset) (n : String) (new : Attrs) : Dataset :=
  { s with vars := mapAttrs n new s.vars }

/-- A dimension reference of a `TemplateUnit`: either a coordinate label
(`str` / `CoordinatesLabels` in the source) resolved against the state, or an
explicit coordinate array (`xr.DataArray` in the source). -/
inductive DimRef where
  | label (d : Dim)
  | array (d : Dim) (c : Coord)

/-- The precondition loop at the top of `TemplateUnit.generate`: for each
dimension reference, in order, a label requires the state to be present
(`ValueError` otherwise) and to contain that coordinate (`ValueError`
otherwise).  Returns the first error hit, if any. -/
def checkDims (dims : List DimRef) (st : Option Dataset) : Option PyError :=
  match dims with
  | [] => none
  | .array _ _ :: rest => checkDims rest st
  | .label d :: rest =>
    match st with
    | none => some (.valueError "You need to provide the state of the model to generate the template.")
    | some s =>
      if (alookup d s.coords).isSome then checkDims rest st
      else some (.valueError "Dimension is not defined in the state of the model.")

/-- The `coords` list built by `TemplateUnit.generate`: a label takes the
coordinate from the state, an explicit array is used as is. -/
def buildCoords (dims : List DimRef) (st : Option Dataset) : List (Dim × Coord) :=
  dims.map (fun r =>
    match r with
    | .label d => (d, (st.bind (fun s => alookup d s.coords)).getD [])
    | .array d c => (d, c))

/-- Shallow embedding of `seapopym.core.template.TemplateUnit`.  The `chunks`
and `dtype` fields only influence the dask backing of the generated placeholder
(chunk layout and element type), never its shape, coordinates or metadata, so
they are carried but do not enter `generate`. -/
structure TemplateUnit where
  name : String
  attrs : Attrs
  dims : List DimRef
  chunks : Option (List (Dim × Nat)) := none
  dtype : Option String := none

/-- Source `TemplateUnit.generate(state)`: check the dimension references, build the
coordinates from the state, allocate an uninitialized array (`da.empty`, the
contents being whatever the buffer `buf` holds), attach `attrs`, reorder the
dimensions to the canonical CF order, and validate coordinate integrity. -/
def TemplateUnit.generate (u : TemplateUnit) (buf : Buf) (st : Option Dataset) :
    Except PyError DataArray :=
  match checkDims u.dims st with
  | some e => .error e
  | none =>
    let coords := buildCoords u.dims st
    let arr : DataArray :=
      { sizes := coords.map (fun p => (p.1, p.2.length)),
        coords := coords,
        attrs := u.attrs,
        data := buf }
    let ordered := orderArr arr
    if coordsValid coords then .ok ordered
    else .error (.valueError "Invalid coordinates in the state of the model.")

/-- Shallow embedding of `seapopym.core.template.Template`: an ordered
collection of template units. -/
structure Template where
  template_unit : List TemplateUnit

/-- The dict comprehension of `Template.generate`: generate every unit in
declaration order, propagating the first failure. -/
def generateUnits (units : List TemplateUnit) (buf : Buf) (st : Option Dataset) :
    Except PyError (List (String × DataArray)) :=
  match units with
  | [] => .ok []
  | u :: rest => do
    let a ← u.generate buf st
    let tail ← generateUnits rest buf st
    .ok ((u.name, a) :: tail)

/-- Source `Template.generate(state)`: generate all units, assemble them into a
Dataset, and validate the coordinate integrity of the whole set. -/
def Template.generate (t : Template) (buf : Buf) (st : Option Dataset) :
    Except PyError Dataset := do
  let results ← generateUnits t.template_unit buf st
  ensure_coordinate_integrity (datasetOfVars results)

/-- Shallow embedding of `seapopym.core.kernel.KernelUnit`.  Transformation
functions are Python callables that can raise, hence `Except`.  The
`to_remove_from_state` default of `None` is embedded as the empty list (the
removal loop reads `to_remove_from_state or []`). -/
structure KernelUnit where
  name : String
  template : Template
  function : Dataset → Except PyError Dataset
  to_remove_from_state : List String := []
  parallel : Bool := false

/-- The validation loop of `KernelUnit._run_without_dask`: for every template
unit, in order, fail with `ValueError` when the declared name is absent from
the results, otherwise assign the declared attrs onto that output via
`assign_attrs`. -/
def applyTemplates (units : List TemplateUnit) (res : Dataset) : Except PyError Dataset :=
  match units with
  | [] => .ok res
  | t :: rest =>
    match alookup t.name res.vars with
    | none => .error (.valueError ("Variable " ++ t.name ++ " is not in the results."))
    | some _ => applyTemplates rest (setVarAttrs res t.name t.attrs)

/-- Source `KernelUnit._run_without_dask`: call the transformation function eagerly,
then run the template validation loop over its results. -/
def KernelUnit.runWithoutDask (u : KernelUnit) (s : Dataset) : Except PyError Dataset := do
  let results ← u.function s
  applyTemplates u.template.template_unit results

/-- Call `xr.map_blocks(func, state, template=tmpl)` for a state with no dask-backed
variables: per the xarray documentation quoted at the top of `template.py`,
this is equivalent to calling `func(state)` directly; the template argument is
not consulted.  The states of this development carry no dask backing. -/
def map_blocks (f : Dataset → Except PyError Dataset) (s : Dataset) (_tmpl : Dataset) :
    Except PyError Dataset :=
  f s

/-- Source `KernelUnit._map_block_with_dask`: generate the expected-shape template from
the state, then defer to `xr.map_blocks`. -/
def KernelUnit.mapBlockWithDask (u : KernelUnit) (buf : Buf) (s : Dataset) :
    Except PyError Dataset := do
  let result_template ← u.template.generate buf (some s)
  map_blocks u.function s result_template

/-- Source `KernelUnit.run`: dispatch on the `parallel` flag. -/
def KernelUnit.run (u : KernelUnit) (buf : Buf) (s : Dataset) : Except PyError Dataset :=
  if u.parallel then u.mapBlockWithDask buf s
  else u.runWithoutDask s

/-- Shallow embedding of `seapopym.core.kernel.Kernel`: the ordered list of
kernel unit instances fixed at construction. -/
structure Kernel where
  kernel_unit : List KernelUnit
  parallel : Bool := false

/-- The loop body of `Kernel.run`: for each unit in list order, run it, merge
its partial results over the accumulated state with override compatibility
(`results.merge(state, compat="override")`, results win), then drop the
variables the unit marked for removal. -/
def runUnits (units : List KernelUnit) (buf : Buf) (s : Dataset) : Except PyError Dataset :=
  match units with
  | [] => .ok s
  | ku :: rest => do
    let results ← ku.run buf s
    let merged := mergeOverride results s
    runUnits rest buf (dropVarsList merged ku.to_remove_from_state)

/-- Source `Kernel.run`: execute all units in order, then validate coordinate
integrity once at the end. -/
def Kernel.run (k : Kernel) (buf : Buf) (s : Dataset) : Except PyError Dataset := do
  let final ← runUnits k.kernel_unit buf s
  ensure_coordinate_integrity final

/-- The template datasets of all units of a kernel, in order. -/
def kernelTemplates (units : List KernelUnit) (buf : Buf) (s : Dataset) :
    Except PyError (List Dataset) :=
  match units with
  | [] => .ok []
  | ku :: rest => do
    let g ← ku.template.generate buf (some s)
    let tail ← kernelTemplates rest buf s
    .ok (g :: tail)

/-- Source `Kernel.template(state)`: `xr.merge([state] + templates, compat="override")`
— the input state comes first in the merge list, so its fields win over every
generated placeholder; placeholder names absent from the state are added. -/
def Kernel.template (k : Kernel) (buf : Buf) (s : Dataset) : Except PyError Dataset := do
  let gs ← kernelTemplates k.kernel_unit buf s
  .ok (gs.foldl mergeOverride s)

/-- Call `np.nan_to_num(arr, 0.0)` on a named-index array: NaN (`none`) becomes 0. -/
def nanToNum (f : Ix → Option ℚ) : Ix → ℚ :=
  fun ix => (f ix).getD 0

/-- Python `int(x)`: truncation toward zero.  On a normalized rational
`num/den` this is the T-division of the numerator by the denominator. -/
def pyInt (q : ℚ) : ℤ :=
  Int.tdiv q.num (q.den : ℤ)

/-- Value of a 0-dimensional (scalar) DataArray. -/
def scalarValue (a : DataArray) : ℚ :=
  (a.data (fun _ => 0)).getD 0

/-- Fix the time component of a named index (the `[:, t, ...]` slices of the
compiled biomass functions; after `order_data` the positional time axis is the
`T` dimension of the declared `[functional_group, T, Y, X]` layout). -/
def setTime (ix : Ix) (t : Nat) : Ix :=
  setDim ix Dim.time t

/-- Shallow embedding of
`seapopym.function.compiled_functions.biomass_compiled_functions.biomass_euler_explicite`:
`B(0) = IC + dt*R(0) - dt*m(0)*IC` with `IC = 0` when no initial condition is
given, and `B(t+1) = B(t) + dt*R(t+1) - dt*m(t+1)*B(t)`. -/
def biomass_euler_explicite (r m : Ix → ℚ) (ic : Option (Ix → ℚ)) (dt : ℚ) :
    Nat → Ix → ℚ
  | 0, ix =>
    (ic.getD (fun _ => 0)) ix + dt * r (setTime ix 0)
      - dt * m (setTime ix 0) * ((ic.getD (fun _ => 0)) ix)
  | t + 1, ix =>
    biomass_euler_explicite r m ic dt t ix + dt * r (setTime ix (t + 1))
      - dt * m (setTime ix (t + 1)) * biomass_euler_explicite r m ic dt t ix

/-- Shallow embedding of `seapopym.function.biomass.biomass`: reorder the state,
read the recruited and mortality fields (NaN replaced by 0, cast to float64),
truncate the timestep to an integer, read the optional initial biomass
condition, integrate with the explicit Euler scheme, and wrap the result in a
dataset keyed `"biomass"` with the dims and coords of the mortality field. -/
def biomassFn (s : Dataset) : Except PyError Dataset := do
  let sOrd := orderDataset s
  let recruitedArr ← sOrd.getVar "recruited"
  let mortalityArr ← sOrd.getVar "mortality_field"
  let timestepArr ← sOrd.getVar "timestep"
  let ic : Option (Ix → ℚ) :=
    (alookup "initial_condition_biomass" sOrd.vars).map (fun a => nanToNum a.data)
  let dt : ℚ := ((pyInt (scalarValue timestepArr) : ℤ) : ℚ)
  let bio := biomass_euler_explicite (nanToNum recruitedArr.data) (nanToNum mortalityArr.data) ic dt
  let arr : DataArray :=
    { sizes := mortalityArr.sizes,
      coords := mortalityArr.coords,
      attrs := [],
      data := fun ix => some (bio (ix Dim.time) ix) }
  .ok (datasetOfVars [("biomass", arr)])

/-- Selection `isel(T=0)` on a named-index array: drop the time dimension and pin the
time component of the index to 0. -/
def iselTime0 (a : DataArray) : DataArray :=
  { sizes := a.sizes.filter (fun p => decide (¬ p.1 = Dim.time)),
    coords := a.coords.filter (fun p => decide (¬ p.1 = Dim.time)),
    attrs := a.attrs,
    data := fun ix => a.data (setTime ix 0) }

/-- Shallow embedding of `seapopym.function.global_mask.global_mask`: the mask
is `notnull` of the temperature forcing at the first timestep (booleans are
embedded as the rationals 0 and 1). -/
def global_mask (s : Dataset) : Except PyError Dataset := do
  let temp ← s.getVar "temperature"
  let sliced := iselTime0 temp
  let mask : DataArray :=
    { sliced with attrs := [], data := fun ix => some (if (sliced.data ix).isSome then 1 else 0) }
  .ok (datasetOfVars [("mask", mask)])

/-- Selection `.sel(Z=v)` against the Z coordinate of the global mask: label-based
selection; `KeyError` when the label (or a NaN layer position) does not
resolve. -/
def selLayer (gm : DataArray) (zvals : Coord) (pos : Option ℚ) :
    Except PyError (Ix → Option ℚ) :=
  match pos with
  | none => .error (.keyError "layer")
  | some v =>
    match zvals.findIdx? (fun q => decide (q = v)) with
    | none => .error (.keyError "layer")
    | some j => .ok (fun ix => gm.data (setDim ix Dim.Z j))

/-- The per-functional-group loop of `mask_by_fgroup`: for each group position,
select the global mask at the day and the night layer and AND them (booleans as
0/1 rationals, conjunction as multiplication). -/
def fgroupMasks (gm day night : DataArray) (zvals : Coord) :
    Nat → Except PyError (List (Ix → Option ℚ))
  | 0 => .ok []
  | n + 1 => do
    let head ← fgroupMasks gm day night zvals n
    let p := n
    let dayMask ← selLayer gm zvals (day.data (setDim (fun _ => 0) Dim.functional_group p))
    let nightMask ← selLayer gm zvals (night.data (setDim (fun _ => 0) Dim.functional_group p))
    .ok (head ++ [fun ix => some (((dayMask ix).getD 0) * ((nightMask ix).getD 0))])

/-- Shallow embedding of
`seapopym.function.mask_by_functional_group.mask_by_fgroup`: stack the per-group
day-and-night masks along the functional-group axis, with the Y/X frame of the
global mask. -/
def mask_by_fgroup (s : Dataset) : Except PyError Dataset := do
  let day ← s.getVar "day_layer"
  let night ← s.getVar "night_layer"
  let gm ← s.getVar "mask"
  let fgCoord := (alookup Dim.functional_group day.coords).getD []
  let zvals := (alookup Dim.Z gm.coords).getD []
  let masks ← fgroupMasks gm day night zvals fgCoord.length
  let arr : DataArray :=
    { sizes := [(Dim.functional_group, fgCoord.length),
        (Dim.Y, (alookup Dim.Y gm.sizes).getD 0), (Dim.X, (alookup Dim.X gm.sizes).getD 0)],
      coords := [(Dim.functional_group, fgCoord)] ++
        (gm.coords.filter (fun p => decide (p.1 = Dim.Y ∨ p.1 = Dim.X))),
      attrs := [],
      data := fun ix =>
        match masks.get? (ix Dim.functional_group) with
        | some f => f ix
        | none => none }
  .ok (datasetOfVars [("mask_fgroup", arr)])

/-- Mean `np.mean` over a flat array (modelled over the reals; the metric layer uses
`np.sqrt`, which has no exact rational counterpart). -/
noncomputable def listMean (l : List ℝ) : ℝ := l.sum / l.length

/-- Squared errors `(prediction - observation) ** 2`, elementwise over arrays of equal shape. -/
def squaredErrors (p o : List ℝ) : List ℝ :=
  List.zipWith (fun a b => (a - b) ^ 2) p o

/-- Shallow embedding of
`seapopym_optimization.cost_function.metric.rmse_comparator`:
`np.sqrt(np.mean((prediction - observation) ** 2))`. -/
noncomputable def rmse_comparator (p o : List ℝ) : ℝ :=
  Real.sqrt (listMean (squaredErrors p o))

/-- Standard deviation `observation.std()` (numpy population form):
`sqrt(mean((x - mean(x)) ** 2))`. -/
noncomputable def observationStd (o : List ℝ) : ℝ :=
  Real.sqrt (listMean (o.map (fun x => (x - listMean o) ^ 2)))

/-- Shallow embedding of
`seapopym_optimization.cost_function.metric.nrmse_std_comparator`:
`rmse_comparator(prediction, observation) / observation.std()`. -/
noncomputable def nrmse_std_comparator (p o : List ℝ) : ℝ :=
  rmse_comparator p o / observationStd o

/-- Modelled from the spec: `seapopym.standard.attributs.global_mask_desc` is
not among the sources; it is an opaque metadata dictionary whose content no
claim depends on. -/
def global_mask_desc : Attrs := []

/-- Modelled from the spec: `seapopym.standard.attributs.mask_by_fgroup_desc`,
opaque metadata (see `global_mask_desc`). -/
def mask_by_fgroup_desc : Attrs := []

/-- Modelled from the spec: `seapopym.standard.attributs.biomass_desc`, opaque
metadata (see `global_mask_desc`). -/
def biomass_desc : Attrs := []

/-- Projection used to state metadata-only equalities: everything of a
DataArray except its (possibly uninitialized) values. -/
def DataArray.meta (a : DataArray) : List (Dim × Nat) × List (Dim × Coord) × Attrs :=
  (a.sizes, a.coords, a.attrs)

/-- Metadata projection of a Dataset: coordinates plus, per variable, name and
array metadata. -/
def Dataset.meta (s : Dataset) :
    List (Dim × Coord) × List (String × (List (Dim × Nat) × List (Dim × Coord) × Attrs)) :=
  (s.coords, s.vars.map (fun p => (p.1, p.2.meta)))

/-- Replace the values of an array, keeping its metadata. -/
def DataArray.withData (a : DataArray) (buf : Buf) : DataArray :=
  { a with data := buf }

/-- Replace the values of every variable of a dataset, keeping all metadata. -/
def Dataset.withData (s : Dataset) (buf : Buf) : Dataset :=
  { s with vars := (s.vars.map (fun p => (p.1, p.2.withData buf))) }

/-- Value of variable `n` at index `ix` in the dataset a computation returned
(`none` when the computation failed or the variable is absent). -/
def stateVarValue (r : Except PyError Dataset) (n : String) (ix : Ix) : Option (Option ℚ) :=
  match r with
  | .ok ds => (alookup n ds.vars).map (fun a => a.data ix)
  | .error _ => none

/-- Attributes of variable `n` in the dataset a computation returned. -/
def varAttrsOf (r : Except PyError Dataset) (n : String) : Option Attrs :=
  match r with
  | .ok ds => (alookup n ds.vars).map (fun a => a.attrs)
  | .error _ => none

/-- Whether a computation failed with the `MissingStateError` class. -/
def errClassIsMissingState (r : Except PyError DataArray) : Bool :=
  match r with
  | .error (.missingStateError _) => true
  | _ => false

/-- Strict comparison of two looked-up values: true only when both are present,
non-NaN, and the first is strictly below the second. -/
def ltOpt (a b : Option (Option ℚ)) : Bool :=
  match a, b with
  | some (some qa), some (some qb) => decide (qa < qb)
  | _, _ => false

/-- A zero buffer standing for arbitrary uninitialized memory in concrete
scenarios. -/
def buf0 : Buf := fun _ => none

/-- A 0-dimensional array holding one value (used by the merge-law scenario). -/
def constArr (v : Option ℚ) : DataArray :=
  { sizes := [], coords := [], attrs := [], data := fun _ => v }

/-- A template unit declaring a name with no dimensions and no metadata. -/
def tuNoDims (n : String) : TemplateUnit :=
  { name := n, attrs := [], dims := [] }

/-- First unit of the merge-law scenario: produces the single field `x`. -/
def unitProducingX (a : Option ℚ) : KernelUnit :=
  { name := "first", template := { template_unit := [tuNoDims "x"] },
    function := fun _ => .ok (datasetOfVars [("x", constArr a)]) }

/-- Second unit of the merge-law scenario: produces the fields `x` and `y`. -/
def unitProducingXY (b c : Option ℚ) : KernelUnit :=
  { name := "second", template := { template_unit := [tuNoDims "x", tuNoDims "y"] },
    function := fun _ => .ok (datasetOfVars [("x", constArr b), ("y", constArr c)]) }

/-- Second unit of the merge-law scenario with `to_remove_from_state=["x"]`. -/
def unitProducingXYRemove (b c : Option ℚ) : KernelUnit :=
  { unitProducingXY b c with to_remove_from_state := ["x"] }

/-- Two-unit kernel of the merge-law scenario. -/
def twoUnitKernel (a b c : Option ℚ) : Kernel :=
  { kernel_unit := [unitProducingX a, unitProducingXY b c] }

/-- Two-unit kernel of the merge-law scenario, with removal of `x` after the
second unit. -/
def twoUnitKernelRemove (a b c : Option ℚ) : Kernel :=
  { kernel_unit := [unitProducingX a, unitProducingXYRemove b c] }

/-- A parallel kernel unit whose function produces none of the names its
template declares. -/
def parUnit : KernelUnit :=
  { name := "par", template := { template_unit := [tuNoDims "v"] },
    function := fun _ => .ok emptyDs, parallel := true }

/-- A sequential kernel unit whose function produces none of the names its
template declares. -/
def seqUnit : KernelUnit :=
  { name := "seq", template := { template_unit := [tuNoDims "v"] },
    function := fun _ => .ok emptyDs }

/-- An array carrying function-attached metadata (for the attrs-override
scenario). -/
def arrWithAttrs : DataArray :=
  { sizes := [], coords := [], attrs := [("extra", "1")], data := fun _ => some 0 }

/-- A kernel unit whose function attaches its own metadata key `extra`, while
the template declares the key `units`. -/
def c5unit : KernelUnit :=
  { name := "c5", template := { template_unit := [{ name := "v", attrs := [("units", "m")], dims := [] }] },
    function := fun _ => .ok (datasetOfVars [("v", arrWithAttrs)]) }

/-- The dataset `c5unit.function` produces. -/
def c5res : Dataset := datasetOfVars [("v", arrWithAttrs)]

/-- The dataset `c5unit.run` returns: the template key was layered on top of
the function-attached metadata. -/
def c5out : Dataset :=
  { coords := [],
    vars := [("v", { sizes := [], coords := [], attrs := [("extra", "1"), ("units", "m")],
                     data := fun _ => some 0 })] }

/-- A template unit whose single dimension reference is the coordinate label
`T` (used to probe the no-state error class). -/
def c6unit : TemplateUnit :=
  { name := "w", attrs := [], dims := [DimRef.label Dim.time] }

/-- Functional-group coordinate of the synthetic end-to-end scenario. -/
def coordFg : Coord := [0, 1]

/-- Time coordinate (3 timesteps) of the synthetic scenario. -/
def coordT : Coord := [0, 1, 2]

/-- Latitude coordinate (2 cells) of the synthetic scenario. -/
def coordY : Coord := [0, 1]

/-- Longitude coordinate (2 cells) of the synthetic scenario. -/
def coordX : Coord := [0, 1]

/-- Single-layer depth coordinate of the synthetic scenario; the value 1 is the
epipelagic depth of `SeaLayers`. -/
def coordZ : Coord := [1]

/-- Temperature forcing of the synthetic scenario: finite (non-NaN) everywhere,
so the global mask is all-ocean. -/
def tempArr : DataArray :=
  { sizes := [(Dim.time, 3), (Dim.Y, 2), (Dim.X, 2), (Dim.Z, 1)],
    coords := [(Dim.time, coordT), (Dim.Y, coordY), (Dim.X, coordX), (Dim.Z, coordZ)],
    attrs := [], data := fun _ => some 20 }

/-- Day (and night) layer positions of the two functional groups: both live in
layer 1. -/
def layerArr : DataArray :=
  { sizes := [(Dim.functional_group, 2)],
    coords := [(Dim.functional_group, coordFg)],
    attrs := [], data := fun _ => some 1 }

/-- Constant strictly positive recruitment of the synthetic scenario. -/
def recruitedArr4 : DataArray :=
  { sizes := [(Dim.functional_group, 2), (Dim.time, 3), (Dim.Y, 2), (Dim.X, 2)],
    coords := [(Dim.functional_group, coordFg), (Dim.time, coordT), (Dim.Y, coordY), (Dim.X, coordX)],
    attrs := [], data := fun _ => some 1 }

/-- Identically zero mortality of the synthetic scenario. -/
def mortalityArr4 : DataArray :=
  { sizes := [(Dim.functional_group, 2), (Dim.time, 3), (Dim.Y, 2), (Dim.X, 2)],
    coords := [(Dim.functional_group, coordFg), (Dim.time, coordT), (Dim.Y, coordY), (Dim.X, coordX)],
    attrs := [], data := fun _ => some 0 }

/-- Scalar timestep of 1 day. -/
def timestepArr4 : DataArray :=
  { sizes := [], coords := [], attrs := [], data := fun _ => some 1 }

/-- Synthetic 2x2-grid state: 2 functional groups, 3 timesteps, zero mortality,
constant positive recruitment, no initial biomass condition. -/
def state4 : Dataset :=
  { coords := [(Dim.functional_group, coordFg), (Dim.time, coordT), (Dim.Y, coordY),
      (Dim.X, coordX), (Dim.Z, coordZ)],
    vars := [("temperature", tempArr), ("day_layer", layerArr), ("night_layer", layerArr),
      ("recruited", recruitedArr4), ("mortality_field", mortalityArr4),
      ("timestep", timestepArr4)] }

/-- Source `GlobalMaskTemplate`: name `mask`, dims `[Y, X, Z]`, boolean dtype. -/
def tuGlobalMask : TemplateUnit :=
  { name := "mask", attrs := global_mask_desc,
    dims := [DimRef.label Dim.Y, DimRef.label Dim.X, DimRef.label Dim.Z],
    dtype := some "bool" }

/-- Source `MaskByFunctionalGroupTemplate`: name `mask_fgroup`, dims
`[functional_group, Y, X]`, boolean dtype. -/
def tuMaskFgroup : TemplateUnit :=
  { name := "mask_fgroup", attrs := mask_by_fgroup_desc,
    dims := [DimRef.label Dim.functional_group, DimRef.label Dim.Y, DimRef.label Dim.X],
    dtype := some "bool" }

/-- Source `BiomassTemplate`: name `biomass`, dims `[functional_group, T, Y, X]`. -/
def tuBiomass : TemplateUnit :=
  { name := "biomass", attrs := biomass_desc,
    dims := [DimRef.label Dim.functional_group, DimRef.label Dim.time,
      DimRef.label Dim.Y, DimRef.label Dim.X] }

/-- Source `GlobalMaskKernel` unit instance. -/
def globalMaskUnit : KernelUnit :=
  { name := "global_mask", template := { template_unit := [tuGlobalMask] }, function := global_mask }

/-- Source `MaskByFunctionalGroupKernel` unit instance. -/
def maskByFgroupUnit : KernelUnit :=
  { name := "mask_by_fgroup", template := { template_unit := [tuMaskFgroup] },
    function := mask_by_fgroup }

/-- Source `BiomassKernel` unit instance. -/
def biomassUnit : KernelUnit :=
  { name := "biomass", template := { template_unit := [tuBiomass] }, function := biomassFn }

/-- The 3-unit kernel of the end-to-end scenario:
global_mask, mask_by_fgroup, biomass. -/
def kernel4 : Kernel :=
  { kernel_unit := [globalMaskUnit, maskByFgroupUnit, biomassUnit] }

/-- The end-to-end run of the synthetic scenario. -/
def run4 : Except PyError Dataset := kernel4.run buf0 state4

/-- Named index of the synthetic scenario (time, group, latitude, longitude). -/
def mkIx4 (t g y x : Nat) : Ix :=
  fun d =>
    match d with
    | Dim.time => t
    | Dim.functional_group => g
    | Dim.Y => y
    | Dim.X => x
    | _ => 0

/-- Biomass value of the end-to-end run at a given index. -/
def bioVal (t g y x : Nat) : Option (Option ℚ) :=
  stateVarValue run4 "biomass" (mkIx4 t g y x)

/-- The biomass output array `biomass` builds from the formatted inputs. -/
def biomassOutputArr (recA morA : DataArray) (ic : Option (Ix → ℚ)) (dt : ℚ) : DataArray :=
  { sizes := morA.sizes, coords := morA.coords, attrs := [],
    data := fun ix =>
      some (biomass_euler_explicite (nanToNum recA.data) (nanToNum morA.data) ic dt (ix Dim.time) ix) }

/-- Kernel unit whose template placeholder declares the fresh name `p`
(used for the `Kernel.template` precedence scenario). -/
def unitW : KernelUnit :=
  { name := "w", template := { template_unit := [tuNoDims "p"] },
    function := fun _ => .ok emptyDs }

/-- One-unit kernel around `unitW`. -/
def kernelW : Kernel := { kernel_unit := [unitW] }

/-- Input state of the `Kernel.template` scenario: owns the field `q`. -/
def stateW : Dataset := { coords := [], vars := [("q", constArr (some 5))] }

/-- Result of `kernelW.template buf0 stateW`: `q` kept from the state, the
placeholder `p` added. -/
def mergedW : Dataset :=
  { coords := [],
    vars := [("q", constArr (some 5)),
      ("p", { sizes := [], coords := [], attrs := [], data := buf0 })] }

/-- C1: Kernel.run processes its units in list order; after each unit the
accumulated state is the override-merge in which the partial result of the unit
wins on name collisions while non-overlapping fields of both sides are kept,
then the names in `to_remove_from_state` are dropped.  Concretely, for a
two-unit Kernel producing fields x and x,y with payloads a and b,c, the
final x is b from the second unit and y is present with payload c; with
`to_remove_from_state=["x"]` on the second unit, x is absent and y remains. -/
theorem claim_C1_kernel_merge_law (a b c : Option ℚ) :
    Kernel.run (twoUnitKernel a b c) buf0 emptyDs =
      .ok { coords := [], vars := [("x", constArr b), ("y", constArr c)] } ∧
    Kernel.run (twoUnitKernelRemove a b c) buf0 emptyDs =
      .ok { coords := [], vars := [("y", constArr c)] } :=
  ⟨rfl, rfl⟩

/-- C2 counterexample: a KernelUnit with `parallel=True` whose function
produces none of the names declared in its template returns successfully from
`run` (the lazy map_blocks path performs no missing-variable check), so the
claim quantified over both execution paths is false. -/
theorem claim_C2_counterexample :
    parUnit.run buf0 emptyDs = .ok emptyDs ∧
    alookup "v" emptyDs.vars = none ∧ parUnit.parallel = true :=
  ⟨rfl, rfl, rfl⟩

/-- C4 counterexample: in the synthetic 2x2-grid scenario with zero mortality,
recruitment constantly 1 and timestep 1, the biomass the 3-unit kernel
produces at the first timestep is `dt * R = 1`, not 0 as claimed. -/
theorem claim_C4_counterexample :
    bioVal 0 0 0 0 = some (some 1) ∧
    (some (some (1 : ℚ)) : Option (Option ℚ)) ≠ some (some 0) :=
  ⟨by with_unfolding_all rfl, by decide⟩

/-- C4 amended: in the synthetic scenario the biomass is strictly increasing
along the time axis (hence non-decreasing), and with no initial biomass
condition the first-timestep biomass equals `dt * recruitment = 1` (the zero
initial condition enters only as the predecessor of the first step), not 0. -/
theorem claim_C4_amended :
    (∀ g y x : Fin 2, bioVal 0 g.val y.val x.val = some (some 1)) ∧
    (∀ t : Fin 2, ∀ g y x : Fin 2,
      ltOpt (bioVal t.val g.val y.val x.val) (bioVal (t.val + 1) g.val y.val x.val) = true) := by
  constructor <;> with_unfolding_all decide

/-- C5 counterexample: a unit whose function attaches the metadata key `extra`
to a declared output, while the template declares only `units`, yields an
output whose attrs are the union of both — the function-attached metadata is
not discarded, so the attrs do not equal exactly the template attrs. -/
theorem claim_C5_counterexample :
    varAttrsOf (c5unit.run buf0 emptyDs) "v" = some [("extra", "1"), ("units", "m")] ∧
    (some [("extra", "1"), ("units", "m")] : Option Attrs) ≠ some [("units", "m")] :=
  ⟨rfl, by decide⟩

/-- C6 counterexample: generating a template unit whose dims name a coordinate
with no state raises a plain ValueError, not a MissingStateError (no such
class exists in the code). -/
theorem claim_C6_counterexample :
    c6unit.generate buf0 none =
      .error (.valueError "You need to provide the state of the model to generate the template.") ∧
    errClassIsMissingState (c6unit.generate buf0 none) = false :=
  ⟨rfl, rfl⟩

/-- C7: nrmse_std_comparator equals rmse_comparator divided by the standard
deviation of the observation, and for a (non-empty) prediction equal to the
observation pointwise the rmse is 0. -/
theorem claim_C7_metric_relation (p o : List ℝ) (hlen : p.length = o.length) :
    nrmse_std_comparator p o = rmse_comparator p o / observationStd o ∧
    (p = o → 0 < o.length → rmse_comparator p o = 0) := by
  refine ⟨rfl, ?_⟩
  rintro rfl hpos
  have hz : (squaredErrors p p).sum = 0 := by
    induction p with
    | nil => rfl
    | cons a t ih =>
      unfold squaredErrors at ih ⊢
      simp only [List.zipWith_cons_cons, List.sum_cons, sub_self, ih]
      norm_num
  unfold rmse_comparator listMean
  rw [hz, zero_div, Real.sqrt_zero]

/-- Witness for C7 at prediction = observation = [1, 2]. -/
theorem claim_C7_witness :
    ([1, 2] : List ℝ).length = ([1, 2] : List ℝ).length ∧
    (nrmse_std_comparator [1, 2] [1, 2] = rmse_comparator [1, 2] [1, 2] / observationStd [1, 2] ∧
      (([1, 2] : List ℝ) = [1, 2] → 0 < ([1, 2] : List ℝ).length →
        rmse_comparator [1, 2] [1, 2] = 0)) :=
  ⟨rfl, claim_C7_metric_relation [1, 2] [1, 2] rfl⟩

/-- Looking up a name distinct from the updated one is unchanged by
`mapAttrs`. -/
theorem alookup_mapAttrs_ne {l : List (String × DataArray)} {n m : String}
    (h : ¬ m = n) (a : Attrs) : alookup m (mapAttrs n a l) = alookup m l := by
  induction l with
  | nil => rfl
  | cons p t ih =>
    by_cases hpn : p.1 = n
    · have hpm : ¬ p.1 = m := fun he => h (by rw [← he, hpn])
      show alookup m ((if p.1 = n then _ else p) :: mapAttrs n a t) = _
      rw [if_pos hpn]
      show (if p.1 = m then _ else alookup m (mapAttrs n a t)) = alookup m (p :: t)
      rw [if_neg hpm]
      show alookup m (mapAttrs n a t) = if p.1 = m then some p.2 else alookup m t
      rw [if_neg hpm]
      exact ih
    · show alookup m ((if p.1 = n then _ else p) :: mapAttrs n a t) = _
      rw [if_neg hpn]
      show (if p.1 = m then some p.2 else alookup m (mapAttrs n a t)) = _
      by_cases hpm : p.1 = m
      · rw [if_pos hpm]
        show _ = (if p.1 = m then some p.2 else alookup m t)
        rw [if_pos hpm]
      · rw [if_neg hpm]
        show _ = (if p.1 = m then some p.2 else alookup m t)
        rw [if_neg hpm]
        exact ih

/-- Looking up the updated name after `mapAttrs` yields the original binding
with updated attributes. -/
theorem alookup_mapAttrs_self {l : List (String × DataArray)} {n : String} (a : Attrs) :
    alookup n (mapAttrs n a l) =
      (alookup n l).map (fun arr => { arr with attrs := attrsUpdate arr.attrs a }) := by
  induction l with
  | nil => rfl
  | cons p t ih =>
    by_cases hpn : p.1 = n
    · show alookup n ((if p.1 = n then (p.1, { p.2 with attrs := attrsUpdate p.2.attrs a }) else p)
          :: mapAttrs n a t) = _
      rw [if_pos hpn]
      show (if p.1 = n then some { p.2 with attrs := attrsUpdate p.2.attrs a }
          else alookup n (mapAttrs n a t)) = _
      rw [if_pos hpn]
      show _ = ((if p.1 = n then some p.2 else alookup n t)).map
        (fun arr => { arr with attrs := attrsUpdate arr.attrs a })
      rw [if_pos hpn]
      rfl
    · show alookup n ((if p.1 = n then (p.1, { p.2 with attrs := attrsUpdate p.2.attrs a }) else p)
          :: mapAttrs n a t) = _
      rw [if_neg hpn]
      show (if p.1 = n then some p.2 else alookup n (mapAttrs n a t)) = _
      rw [if_neg hpn]
      show _ = ((if p.1 = n then some p.2 else alookup n t)).map
        (fun arr => { arr with attrs := attrsUpdate arr.attrs a })
      rw [if_neg hpn]
      exact ih

/-- If some declared template name is absent from the results, the validation
loop of `_run_without_dask` fails with a ValueError. -/
theorem applyTemplates_error_of_missing (ts : List TemplateUnit) (res : Dataset)
    (h : ∃ t ∈ ts, alookup t.name res.vars = none) :
    ∃ msg, applyTemplates ts res = .error (.valueError msg) := by
  induction ts generalizing res with
  | nil =>
    rcases h with ⟨t, ht, _⟩
    exact absurd ht (List.not_mem_nil t)
  | cons t0 rest ih =>
    rcases h with ⟨t, ht, hnone⟩
    cases h0 : alookup t0.name res.vars with
    | none =>
      refine ⟨"Variable " ++ t0.name ++ " is not in the results.", ?_⟩
      simp [applyTemplates, h0]
    | some arr =>
      rcases List.mem_cons.mp ht with he | htr
      · rw [he] at hnone
        rw [h0] at hnone
        cases hnone
      · have hnone2 : alookup t.name (setVarAttrs res t0.name t0.attrs).vars = none := by
          by_cases hname : t.name = t0.name
          · show alookup t.name (mapAttrs t0.name t0.attrs res.vars) = none
            rw [hname, alookup_mapAttrs_self, ← hname, hnone]
            rfl
          · show alookup t.name (mapAttrs t0.name t0.attrs res.vars) = none
            rw [alookup_mapAttrs_ne hname, hnone]
        rcases ih (setVarAttrs res t0.name t0.attrs) ⟨t, htr, hnone2⟩ with ⟨msg, hm⟩
        refine ⟨msg, ?_⟩
        simp [applyTemplates, h0, hm]

/-- Names not declared by the remaining template units are untouched by the
validation loop. -/
theorem applyTemplates_preserve_notmem (ts : List TemplateUnit) (r d : Dataset) (n : String)
    (hn : ∀ t ∈ ts, ¬ t.name = n) (h : applyTemplates ts r = .ok d) :
    alookup n d.vars = alookup n r.vars := by
  induction ts generalizing r with
  | nil =>
    simp only [applyTemplates] at h
    cases h
    rfl
  | cons t0 rest ih =>
    cases h0 : alookup t0.name r.vars with
    | none => simp [applyTemplates, h0] at h
    | some arr =>
      have hrec : applyTemplates rest (setVarAttrs r t0.name t0.attrs) = .ok d := by
        simpa [applyTemplates, h0] using h
      rw [ih (setVarAttrs r t0.name t0.attrs) (fun t htr => hn t (List.mem_cons_of_mem _ htr)) hrec]
      have hne : ¬ n = t0.name := fun he => hn t0 (List.mem_cons_self _ _) (by rw [he])
      show alookup n (mapAttrs t0.name t0.attrs r.vars) = alookup n r.vars
      exact alookup_mapAttrs_ne hne t0.attrs

/-- The validation loop attaches exactly the declared attrs of each template
unit on top of the attrs of the corresponding function output. -/
theorem applyTemplates_spec (ts : List TemplateUnit) (r d : Dataset)
    (hnodup : (ts.map TemplateUnit.name).Nodup)
    (h : applyTemplates ts r = .ok d) :
    ∀ t ∈ ts, ∃ orig, alookup t.name r.vars = some orig ∧
      alookup t.name d.vars = some { orig with attrs := attrsUpdate orig.attrs t.attrs } := by
  induction ts generalizing r with
  | nil =>
    intro t ht
    exact absurd ht (List.not_mem_nil t)
  | cons t0 rest ih =>
    cases h0 : alookup t0.name r.vars with
    | none => simp [applyTemplates, h0] at h
    | some arr =>
      have hrec : applyTemplates rest (setVarAttrs r t0.name t0.attrs) = .ok d := by
        simpa [applyTemplates, h0] using h
      have hn0 : t0.name ∉ rest.map TemplateUnit.name := (List.nodup_cons.mp hnodup).1
      have hndrest : (rest.map TemplateUnit.name).Nodup := (List.nodup_cons.mp hnodup).2
      intro t ht
      rcases List.mem_cons.mp ht with he | htr
      · rw [he]
        refine ⟨arr, h0, ?_⟩
        have hpres : alookup t0.name d.vars =
            alookup t0.name (setVarAttrs r t0.name t0.attrs).vars := by
          refine applyTemplates_preserve_notmem rest _ d t0.name ?_ hrec
          intro u hu he2
          exact hn0 (he2 ▸ List.mem_map_of_mem TemplateUnit.name hu)
        rw [hpres]
        show alookup t0.name (mapAttrs t0.name t0.attrs r.vars) = _
        rw [alookup_mapAttrs_self, h0]
        rfl
      · have hne : ¬ t.name = t0.name := by
          intro he2
          exact hn0 (he2 ▸ List.mem_map_of_mem TemplateUnit.name htr)
        rcases ih _ hndrest hrec t htr with ⟨orig, ho, hd⟩
        refine ⟨orig, ?_, hd⟩
        rw [← ho]
        exact (alookup_mapAttrs_ne hne t0.attrs).symm

/-- With an eagerly succeeding function, the sequential path reduces to the
template validation loop. -/
theorem runWithoutDask_eq (u : KernelUnit) (s res : Dataset) (h : u.function s = .ok res) :
    u.runWithoutDask s = applyTemplates u.template.template_unit res := by
  unfold KernelUnit.runWithoutDask
  rw [h]
  rfl

/-- With a successfully generated template, the parallel path returns exactly
the map_blocks result, which for an unchunked state is the function result. -/
theorem mapBlockWithDask_eq (u : KernelUnit) (buf : Buf) (s tds : Dataset)
    (h : u.template.generate buf (some s) = .ok tds) :
    u.mapBlockWithDask buf s = u.function s := by
  unfold KernelUnit.mapBlockWithDask
  rw [h]
  rfl

/-- C2 amended: with `parallel=False`, `run` raises the missing-variable
ValueError whenever the function output lacks a declared template name (100%
of such cases); with `parallel=True`, `run` performs no such check — once the
template generates, it returns exactly what `xr.map_blocks` returns (the
function result, lazily), never the missing-variable error. -/
theorem claim_C2_amended (u : KernelUnit) (buf : Buf) (s res : Dataset) :
    (u.parallel = false → u.function s = .ok res →
      (∃ t ∈ u.template.template_unit, alookup t.name res.vars = none) →
      ∃ msg, u.run buf s = .error (.valueError msg)) ∧
    (u.parallel = true → ∀ tds, u.template.generate buf (some s) = .ok tds →
      u.run buf s = u.function s) := by
  constructor
  · intro hpar hfun hmiss
    rcases applyTemplates_error_of_missing u.template.template_unit res hmiss with ⟨msg, hm⟩
    refine ⟨msg, ?_⟩
    simp [KernelUnit.run, hpar, runWithoutDask_eq u s res hfun, hm]
  · intro hpar tds hgen
    simp [KernelUnit.run, hpar, mapBlockWithDask_eq u buf s tds hgen]

/-- Witness for the C2 amendment: a sequential unit declaring `v` whose
function returns an empty dataset raises on run. -/
theorem claim_C2_witness :
    seqUnit.parallel = false ∧ seqUnit.function emptyDs = .ok emptyDs ∧
    (∃ t ∈ seqUnit.template.template_unit, alookup t.name emptyDs.vars = none) ∧
    (∃ msg, seqUnit.run buf0 emptyDs = .error (.valueError msg)) :=
  ⟨rfl, rfl, ⟨tuNoDims "v", List.Mem.head _, rfl⟩,
    (claim_C2_amended seqUnit buf0 emptyDs emptyDs).1 rfl rfl ⟨tuNoDims "v", List.Mem.head _, rfl⟩⟩

/-- C5 amended: with `parallel=False`, after a successful run each declared
output carries the template attrs layered on top of the attrs the function
attached (dict-update semantics): template keys win on collision, but
non-conflicting function-attached metadata is retained, not discarded. -/
theorem claim_C5_amended (u : KernelUnit) (buf : Buf) (s ds : Dataset)
    (hpar : u.parallel = false)
    (hnodup : (u.template.template_unit.map TemplateUnit.name).Nodup)
    (hrun : u.run buf s = .ok ds) :
    ∀ t ∈ u.template.template_unit, ∀ res, u.function s = .ok res →
      ∃ orig, alookup t.name res.vars = some orig ∧
        alookup t.name ds.vars = some { orig with attrs := attrsUpdate orig.attrs t.attrs } := by
  intro t ht res hres
  have h2 : applyTemplates u.template.template_unit res = .ok ds := by
    simpa [KernelUnit.run, hpar, KernelUnit.runWithoutDask, hres] using hrun
  exact applyTemplates_spec u.template.template_unit res ds hnodup h2 t ht

/-- Witness for the C5 amendment at the concrete attrs-override scenario. -/
theorem claim_C5_witness :
    c5unit.parallel = false ∧
    (c5unit.template.template_unit.map TemplateUnit.name).Nodup ∧
    c5unit.run buf0 emptyDs = .ok c5out ∧ c5unit.function emptyDs = .ok c5res ∧
    (∃ orig, alookup "v" c5res.vars = some orig ∧
      alookup "v" c5out.vars =
        some { orig with attrs := attrsUpdate orig.attrs [("units", "m")] }) :=
  ⟨rfl, List.nodup_singleton "v", rfl, rfl,
    claim_C5_amended c5unit buf0 emptyDs c5out rfl (List.nodup_singleton "v") rfl
      { name := "v", attrs := [("units", "m")], dims := [] } (List.Mem.head _) c5res rfl⟩

/-- With no state, the precondition loop fails at the first coordinate-label
dimension reference. -/
theorem checkDims_none_error (dims : List DimRef) (h : ∃ d, DimRef.label d ∈ dims) :
    checkDims dims none =
      some (.valueError "You need to provide the state of the model to generate the template.") := by
  induction dims with
  | nil =>
    rcases h with ⟨d, hd⟩
    exact absurd hd (List.not_mem_nil _)
  | cons r rest ih =>
    cases r with
    | label d => rfl
    | array d c =>
      rcases h with ⟨d0, hd0⟩
      rcases List.mem_cons.mp hd0 with he | hm
      · exact DimRef.noConfusion he
      · exact ih ⟨d0, hm⟩

/-- With a state lacking some referenced coordinate, the precondition loop
fails with a ValueError. -/
theorem checkDims_missing_error (dims : List DimRef) (st : Dataset)
    (h : ∃ d, DimRef.label d ∈ dims ∧ alookup d st.coords = none) :
    ∃ msg, checkDims dims (some st) = some (.valueError msg) := by
  induction dims with
  | nil =>
    rcases h with ⟨d, hd, _⟩
    exact absurd hd (List.not_mem_nil _)
  | cons r rest ih =>
    cases r with
    | array d c =>
      rcases h with ⟨d0, hd0, hl⟩
      rcases List.mem_cons.mp hd0 with he | hm
      · exact DimRef.noConfusion he
      · simpa [checkDims] using ih ⟨d0, hm, hl⟩
    | label d =>
      by_cases hd : (alookup d st.coords).isSome = true
      · rcases h with ⟨d0, hd0, hl⟩
        rcases List.mem_cons.mp hd0 with he | hm
        · injection he with he2
          rw [← he2, hl] at hd
          cases hd
        · simpa [checkDims, hd] using ih ⟨d0, hm, hl⟩
      · refine ⟨"Dimension is not defined in the state of the model.", ?_⟩
        simp [checkDims, hd]

/-- C6 amended: `TemplateUnit.generate` fails whenever a coordinate-label dims
element does not resolve in the state coordinates, and when the state is
absent it fails too — in both cases with a plain ValueError, not with a
MissingStateError (no such class exists in the code). -/
theorem claim_C6_amended (u : TemplateUnit) (buf : Buf) :
    ((∃ d, DimRef.label d ∈ u.dims) →
      u.generate buf none =
        .error (.valueError "You need to provide the state of the model to generate the template.")) ∧
    (∀ st : Dataset, (∃ d, DimRef.label d ∈ u.dims ∧ alookup d st.coords = none) →
      ∃ msg, u.generate buf (some st) = .error (.valueError msg)) := by
  constructor
  · intro h
    simp [TemplateUnit.generate, checkDims_none_error u.dims h]
  · intro st h
    rcases checkDims_missing_error u.dims st h with ⟨msg, hm⟩
    exact ⟨msg, by simp [TemplateUnit.generate, hm]⟩

/-- Witness for the C6 amendment at the concrete unit referencing `T`. -/
theorem claim_C6_witness :
    (∃ d, DimRef.label d ∈ c6unit.dims) ∧
    c6unit.generate buf0 none =
      .error (.valueError "You need to provide the state of the model to generate the template.") ∧
    (∃ d, DimRef.label d ∈ c6unit.dims ∧ alookup d emptyDs.coords = none) ∧
    (∃ msg, c6unit.generate buf0 (some emptyDs) = .error (.valueError msg)) :=
  ⟨⟨Dim.time, List.Mem.head _⟩,
    (claim_C6_amended c6unit buf0).1 ⟨Dim.time, List.Mem.head _⟩,
    ⟨Dim.time, List.Mem.head _, rfl⟩,
    (claim_C6_amended c6unit buf0).2 emptyDs ⟨Dim.time, List.Mem.head _, rfl⟩⟩

/-- The keys of the canonically ordered size list are the canonical labels
restricted to those the size list binds. -/
theorem akeys_filterMapSizes (L : List Dim) (l : List (Dim × Nat)) :
    akeys (L.filterMap (fun d => (alookup d l).map (fun n => (d, n)))) =
      L.filter (fun d => (alookup d l).isSome) := by
  induction L with
  | nil => rfl
  | cons d L ih =>
    rw [List.filterMap_cons, List.filter_cons]
    cases h : alookup d l with
    | none => simp [h, ih]
    | some n =>
      simp [h, akeys, List.map_cons, akeys] at ih ⊢
      exact ih

/-- Every binding of the canonically ordered size list comes from the
unordered one. -/
theorem mem_orderSizes (l : List (Dim × Nat)) (p : Dim × Nat) (hp : p ∈ orderSizes l) :
    alookup p.1 l = some p.2 := by
  unfold orderSizes at hp
  rcases List.mem_filterMap.mp hp with ⟨d, _, hd⟩
  cases h : alookup d l with
  | none =>
    rw [h] at hd
    cases hd
  | some n =>
    rw [h] at hd
    cases hd
    exact h

/-- C3: for a state whose coordinates include the three distinct (and valid)
axes A, B, C, generating a TemplateUnit with dims [A, B, C] succeeds with an
array whose dimension order is the canonical CF order restricted to A, B, C
and whose size along each axis is the size of that coordinate in the state. -/
theorem claim_C3_template_round_trip (st : Dataset) (A B C : Dim) (nm : String) (ats : Attrs)
    (buf : Buf)
    (hAB : ¬ A = B) (hAC : ¬ A = C) (hBC : ¬ B = C)
    (hA : (alookup A st.coords).isSome = true)
    (hB : (alookup B st.coords).isSome = true)
    (hC : (alookup C st.coords).isSome = true)
    (hvA : strictlyIncreasing ((alookup A st.coords).getD []) = true)
    (hvB : strictlyIncreasing ((alookup B st.coords).getD []) = true)
    (hvC : strictlyIncreasing ((alookup C st.coords).getD []) = true) :
    ∃ arr, TemplateUnit.generate
        { name := nm, attrs := ats, dims := [DimRef.label A, DimRef.label B, DimRef.label C] }
        buf (some st) = .ok arr ∧
      akeys arr.sizes = CoordinatesLabelsOrdered.filter (fun d => decide (d = A ∨ d = B ∨ d = C)) ∧
      (∀ p ∈ arr.sizes, p.2 = ((alookup p.1 st.coords).getD []).length) := by
  rcases Option.isSome_iff_exists.mp hA with ⟨cA, hcA⟩
  rcases Option.isSome_iff_exists.mp hB with ⟨cB, hcB⟩
  rcases Option.isSome_iff_exists.mp hC with ⟨cC, hcC⟩
  have hchk : checkDims [DimRef.label A, DimRef.label B, DimRef.label C] (some st) = none := by
    simp [checkDims, hA, hB, hC]
  have hco : buildCoords [DimRef.label A, DimRef.label B, DimRef.label C] (some st) =
      [(A, cA), (B, cB), (C, cC)] := by
    simp [buildCoords, hcA, hcB, hcC]
  have hvA2 : strictlyIncreasing cA = true := by rw [hcA] at hvA; exact hvA
  have hvB2 : strictlyIncreasing cB = true := by rw [hcB] at hvB; exact hvB
  have hvC2 : strictlyIncreasing cC = true := by rw [hcC] at hvC; exact hvC
  have hvalid : coordsValid [(A, cA), (B, cB), (C, cC)] = true := by
    simp [coordsValid, hvA2, hvB2, hvC2]
  have hgen : TemplateUnit.generate
      { name := nm, attrs := ats, dims := [DimRef.label A, DimRef.label B, DimRef.label C] }
      buf (some st) =
      .ok (orderArr
        { sizes := [(A, cA.length), (B, cB.length), (C, cC.length)],
          coords := [(A, cA), (B, cB), (C, cC)], attrs := ats, data := buf }) := by
    unfold TemplateUnit.generate
    rw [hchk]
    simp only [hco]
    rw [if_pos (by simpa [orderArr] using hvalid)]
    simp [List.map]
  refine ⟨_, hgen, ?_, ?_⟩
  · show akeys (orderSizes [(A, cA.length), (B, cB.length), (C, cC.length)]) = _
    unfold orderSizes
    rw [akeys_filterMapSizes]
    have hfun : (fun d => (alookup d [(A, cA.length), (B, cB.length), (C, cC.length)]).isSome) =
        (fun d => decide (d = A ∨ d = B ∨ d = C)) := by
      funext d
      by_cases h1 : A = d
      · subst h1
        simp [alookup]
      · by_cases h2 : B = d
        · subst h2
          have k1 : ¬ B = A := fun he => hAB he.symm
          simp [alookup, h1, k1]
        · by_cases h3 : C = d
          · subst h3
            have k1 : ¬ C = A := fun he => hAC he.symm
            have k2 : ¬ C = B := fun he => hBC he.symm
            simp [alookup, h1, h2, k1, k2]
          · have k1 : ¬ d = A := fun he => h1 he.symm
            have k2 : ¬ d = B := fun he => h2 he.symm
            have k3 : ¬ d = C := fun he => h3 he.symm
            simp [alookup, h1, h2, h3, k1, k2, k3]
    rw [hfun]
  · intro p hp
    have hl := mem_orderSizes [(A, cA.length), (B, cB.length), (C, cC.length)] p hp
    by_cases h1 : A = p.1
    · rw [← h1] at hl ⊢
      have e : alookup A [(A, cA.length), (B, cB.length), (C, cC.length)] = some cA.length := by
        show (if A = A then some cA.length else _) = some cA.length
        rw [if_pos rfl]
      rw [e] at hl
      injection hl with hv
      rw [hcA]
      show p.2 = cA.length
      omega
    · by_cases h2 : B = p.1
      · rw [← h2] at hl ⊢
        have e : alookup B [(A, cA.length), (B, cB.length), (C, cC.length)] = some cB.length := by
          show (if A = B then some cA.length
            else alookup B [(B, cB.length), (C, cC.length)]) = some cB.length
          rw [if_neg hAB]
          show (if B = B then some cB.length else _) = some cB.length
          rw [if_pos rfl]
        rw [e] at hl
        injection hl with hv
        rw [hcB]
        show p.2 = cB.length
        omega
      · by_cases h3 : C = p.1
        · rw [← h3] at hl ⊢
          have e : alookup C [(A, cA.length), (B, cB.length), (C, cC.length)] = some cC.length := by
            show (if A = C then some cA.length
              else alookup C [(B, cB.length), (C, cC.length)]) = some cC.length
            rw [if_neg hAC]
            show (if B = C then some cB.length
              else alookup C [(C, cC.length)]) = some cC.length
            rw [if_neg hBC]
            show (if C = C then some cC.length else _) = some cC.length
            rw [if_pos rfl]
          rw [e] at hl
          injection hl with hv
          rw [hcC]
          show p.2 = cC.length
          omega
        · have e : alookup p.1 [(A, cA.length), (B, cB.length), (C, cC.length)] = none := by
            show (if A = p.1 then some cA.length
              else alookup p.1 [(B, cB.length), (C, cC.length)]) = none
            rw [if_neg h1]
            show (if B = p.1 then some cB.length
              else alookup p.1 [(C, cC.length)]) = none
            rw [if_neg h2]
            show (if C = p.1 then some cC.length else alookup p.1 []) = none
            rw [if_neg h3]
            rfl
          rw [e] at hl
          cases hl

/-- Witness for C3 at the synthetic state with axes Y, X, Z. -/
theorem claim_C3_witness :
    (¬ Dim.Y = Dim.X) ∧ (alookup Dim.Y state4.coords).isSome = true ∧
    strictlyIncreasing ((alookup Dim.Y state4.coords).getD []) = true ∧
    (∃ arr, TemplateUnit.generate
        { name := "probe", attrs := [],
          dims := [DimRef.label Dim.Y, DimRef.label Dim.X, DimRef.label Dim.Z] }
        buf0 (some state4) = .ok arr ∧
      akeys arr.sizes = CoordinatesLabelsOrdered.filter
        (fun d => decide (d = Dim.Y ∨ d = Dim.X ∨ d = Dim.Z)) ∧
      (∀ p ∈ arr.sizes, p.2 = ((alookup p.1 state4.coords).getD []).length)) :=
  ⟨by decide, by decide, by with_unfolding_all decide,
    claim_C3_template_round_trip state4 Dim.Y Dim.X Dim.Z "probe" [] buf0
      (by decide) (by decide) (by decide) (by decide) (by decide) (by decide)
      (by with_unfolding_all decide) (by with_unfolding_all decide)
      (by with_unfolding_all decide)⟩

/-- Reduction of an Except bind on a success value. -/
theorem ebind_ok {ε α β : Type} (a : α) (f : α → Except ε β) :
    (do
      let x ← (Except.ok a : Except ε α)
      f x) = f a := rfl

/-- Reduction of an Except bind on an error value. -/
theorem ebind_error {ε α β : Type} (e : ε) (f : α → Except ε β) :
    (do
      let x ← (Except.error e : Except ε α)
      f x) = Except.error e := rfl

/-- Template-unit generation with one buffer is generation with another
buffer after overriding the values: the buffer only lands in the `data`
field. -/
theorem generate_withData (u : TemplateUnit) (buf buf2 : Buf) (st : Option Dataset) :
    (u.generate buf st).map (fun a => a.withData buf2) = u.generate buf2 st := by
  unfold TemplateUnit.generate
  cases h : checkDims u.dims st with
  | some e => rfl
  | none =>
    by_cases hv : coordsValid (buildCoords u.dims st) = true
    · rw [if_pos hv, if_pos hv]
      rfl
    · rw [if_neg hv, if_neg hv]
      rfl

/-- Lifting of `generate_withData` to the unit list of a Template. -/
theorem generateUnits_withData (units : List TemplateUnit) (buf buf2 : Buf) (st : Option Dataset) :
    (generateUnits units buf st).map
        (List.map (fun p => (p.1, DataArray.withData p.2 buf2))) =
      generateUnits units buf2 st := by
  induction units with
  | nil => rfl
  | cons u rest ih =>
    cases hg : u.generate buf st with
    | error e =>
      have h2 : u.generate buf2 st = .error e := by
        rw [← generate_withData u buf buf2 st, hg]
        rfl
      unfold generateUnits
      rw [hg, ebind_error, h2, ebind_error]
      rfl
    | ok a =>
      have h2 : u.generate buf2 st = .ok (a.withData buf2) := by
        rw [← generate_withData u buf buf2 st, hg]
        rfl
      unfold generateUnits
      rw [hg, ebind_ok, h2, ebind_ok]
      cases ht : generateUnits rest buf st with
      | error e2 =>
        have h3 : generateUnits rest buf2 st = .error e2 := by
          rw [← ih, ht]
          rfl
        rw [ebind_error, h3, ebind_error]
        rfl
      | ok tail =>
        have h3 : generateUnits rest buf2 st =
            .ok (tail.map (fun p => (p.1, DataArray.withData p.2 buf2))) := by
          rw [← ih, ht]
          rfl
        rw [ebind_ok, h3, ebind_ok]
        rfl

/-- Assembling value-overridden arrays gives the value-overridden dataset. -/
theorem datasetOfVars_withData (l : List (String × DataArray)) (buf2 : Buf) :
    datasetOfVars (l.map (fun p => (p.1, DataArray.withData p.2 buf2))) =
      (datasetOfVars l).withData buf2 := by
  unfold datasetOfVars Dataset.withData
  congr 1
  rw [List.foldl_map]
  rfl

/-- The coordinate-integrity pass commutes with value override. -/
theorem integrity_withData (ds : Dataset) (buf2 : Buf) :
    (ensure_coordinate_integrity ds).map (fun d => d.withData buf2) =
      ensure_coordinate_integrity (ds.withData buf2) := by
  unfold ensure_coordinate_integrity
  by_cases hv : coordsValid ds.coords = true
  · rw [if_pos hv, if_pos (show coordsValid (ds.withData buf2).coords = true from hv)]
    rfl
  · rw [if_neg hv, if_neg (show ¬ coordsValid (ds.withData buf2).coords = true from hv)]
    rfl

/-- Template generation with one buffer equals generation with another after
overriding the (uninitialized) values. -/
theorem template_generate_withData (t : Template) (buf buf2 : Buf) (st : Option Dataset) :
    (t.generate buf st).map (fun ds => ds.withData buf2) = t.generate buf2 st := by
  unfold Template.generate
  cases hg : generateUnits t.template_unit buf st with
  | error e =>
    have h2 : generateUnits t.template_unit buf2 st = .error e := by
      rw [← generateUnits_withData t.template_unit buf buf2 st, hg]
      rfl
    rw [ebind_error, h2, ebind_error]
    rfl
  | ok l =>
    have h2 : generateUnits t.template_unit buf2 st =
        .ok (l.map (fun p => (p.1, DataArray.withData p.2 buf2))) := by
      rw [← generateUnits_withData t.template_unit buf buf2 st, hg]
      rfl
    rw [ebind_ok, h2, ebind_ok, datasetOfVars_withData]
    exact integrity_withData (datasetOfVars l) buf2

/-- C8: Template.generate is deterministic in everything but the uninitialized
values: two generations from the same immutable state, with arbitrary
different uninitialized-memory contents, agree on variable names, shapes,
coordinates, dimension order and attrs (the whole metadata projection), and
fail identically when they fail. -/
theorem claim_C8_template_determinism (t : Template) (st : Dataset) (buf1 buf2 : Buf) :
    (t.generate buf1 (some st)).map Dataset.meta =
      (t.generate buf2 (some st)).map Dataset.meta := by
  rw [← template_generate_withData t buf1 buf2 (some st)]
  cases h : t.generate buf1 (some st) with
  | error e => rfl
  | ok ds =>
    show Except.ok ds.meta = Except.ok (ds.withData buf2).meta
    have : ds.meta = (ds.withData buf2).meta := by
      unfold Dataset.meta Dataset.withData
      rw [List.map_map]
      rfl
    rw [this]

/-- A binding found in the left part of an appended association list is found
in the whole. -/
theorem alookup_append_left {α β : Type} [DecidableEq α] {k : α} {b : β}
    {l1 l2 : List (α × β)} (h : alookup k l1 = some b) :
    alookup k (l1 ++ l2) = some b := by
  induction l1 with
  | nil => cases h
  | cons p t ih =>
    show (if p.1 = k then some p.2 else alookup k (t ++ l2)) = some b
    by_cases hp : p.1 = k
    · rw [if_pos hp]
      rw [show alookup k (p :: t) = some p.2 from by
        show (if p.1 = k then some p.2 else alookup k t) = some p.2
        rw [if_pos hp]] at h
      exact h
    · rw [if_neg hp]
      refine ih ?_
      rw [show alookup k (p :: t) = alookup k t from by
        show (if p.1 = k then some p.2 else alookup k t) = alookup k t
        rw [if_neg hp]] at h
      exact h

/-- A key bound in an association list is among its keys. -/
theorem mem_akeys_of_alookup {α β : Type} [DecidableEq α] {k : α} {b : β}
    {l : List (α × β)} (h : alookup k l = some b) : k ∈ akeys l := by
  induction l with
  | nil => cases h
  | cons p t ih =>
    by_cases hp : p.1 = k
    · rw [← hp]
      exact List.mem_cons_self _ _
    · refine List.mem_cons_of_mem _ (ih ?_)
      rw [show alookup k (p :: t) = alookup k t from by
        show (if p.1 = k then some p.2 else alookup k t) = alookup k t
        rw [if_neg hp]] at h
      exact h

/-- Variables of the first dataset keep their exact binding through an
override merge. -/
theorem alookup_mergeOverride_left (a b : Dataset) (n : String) (arr : DataArray)
    (h : alookup n a.vars = some arr) :
    alookup n (mergeOverride a b).vars = some arr :=
  alookup_append_left h

/-- Keys of the first dataset survive an override merge. -/
theorem mem_keys_mergeOverride_left (a b : Dataset) (n : String)
    (h : n ∈ akeys a.vars) : n ∈ akeys (mergeOverride a b).vars := by
  show n ∈ akeys (a.vars ++ _)
  unfold akeys
  rw [List.map_append]
  exact List.mem_append_left _ h

/-- Keys of the second dataset survive an override merge. -/
theorem mem_keys_mergeOverride_right (a b : Dataset) (n : String)
    (h : n ∈ akeys b.vars) : n ∈ akeys (mergeOverride a b).vars := by
  cases hm : alookup n a.vars with
  | some arr => exact mem_keys_mergeOverride_left a b n (mem_akeys_of_alookup hm)
  | none =>
    show n ∈ akeys (a.vars ++ b.vars.filter fun p => (alookup p.1 a.vars).isNone)
    unfold akeys
    rw [List.map_append]
    refine List.mem_append_right _ ?_
    rcases List.mem_map.mp h with ⟨p, hp, hpn⟩
    refine List.mem_map.mpr ⟨p, List.mem_filter.mpr ⟨hp, ?_⟩, hpn⟩
    rw [hpn, hm]
    rfl

/-- Variables of the initial state keep their exact binding through the
placeholder merge fold of `Kernel.template`. -/
theorem alookup_foldl_merge (gs : List Dataset) (s : Dataset) (n : String) (arr : DataArray)
    (h : alookup n s.vars = some arr) :
    alookup n ((gs.foldl mergeOverride s)).vars = some arr := by
  induction gs generalizing s with
  | nil => exact h
  | cons g gs ih => exact ih (mergeOverride s g) (alookup_mergeOverride_left s g n arr h)

/-- Keys of the initial state survive the placeholder merge fold. -/
theorem mem_keys_foldl_merge_init (gs : List Dataset) (s : Dataset) (n : String)
    (h : n ∈ akeys s.vars) : n ∈ akeys ((gs.foldl mergeOverride s)).vars := by
  induction gs generalizing s with
  | nil => exact h
  | cons g gs ih => exact ih (mergeOverride s g) (mem_keys_mergeOverride_left s g n h)

/-- Keys of any merged placeholder appear in the merge-fold result. -/
theorem mem_keys_foldl_merge_mem (gs : List Dataset) (s g : Dataset) (n : String)
    (hg : g ∈ gs) (h : n ∈ akeys g.vars) :
    n ∈ akeys ((gs.foldl mergeOverride s)).vars := by
  induction gs generalizing s with
  | nil => exact absurd hg (List.not_mem_nil g)
  | cons g0 gs ih =>
    rcases List.mem_cons.mp hg with he | hmem
    · refine mem_keys_foldl_merge_init gs (mergeOverride s g0) n ?_
      exact mem_keys_mergeOverride_right s g0 n (he ▸ h)
    · exact ih (mergeOverride s g0) hmem

/-- A successfully generated template of a unit of the kernel appears in the
list of generated placeholder datasets. -/
theorem kernelTemplates_mem (units : List KernelUnit) (buf : Buf) (s : Dataset)
    (gs : List Dataset) (h : kernelTemplates units buf s = .ok gs)
    (u : KernelUnit) (hu : u ∈ units) (g : Dataset)
    (hg : u.template.generate buf (some s) = .ok g) : g ∈ gs := by
  induction units generalizing gs with
  | nil => exact absurd hu (List.not_mem_nil u)
  | cons u0 rest ih =>
    unfold kernelTemplates at h
    cases h0 : u0.template.generate buf (some s) with
    | error e =>
      rw [h0, ebind_error] at h
      cases h
    | ok g0 =>
      rw [h0, ebind_ok] at h
      cases ht : kernelTemplates rest buf s with
      | error e =>
        rw [ht, ebind_error] at h
        cases h
      | ok tail =>
        rw [ht, ebind_ok] at h
        injection h with h2
        subst h2
        rcases List.mem_cons.mp hu with he | hmem
        · rw [he] at hg
          rw [h0] at hg
          injection hg with hg2
          rw [hg2]
          exact List.mem_cons_self _ _
        · exact List.mem_cons_of_mem _ (ih tail ht hmem)

/-- C10: in `Kernel.template(state)`, the input state comes first in the
override merge, so an existing field of the state is never overridden by a
template-generated placeholder of a unit, while placeholder names (in the state
or not) are present in the merged result. -/
theorem claim_C10_template_state_precedence (k : Kernel) (buf : Buf) (s m : Dataset)
    (hm : k.template buf s = .ok m) :
    (∀ n arr, alookup n s.vars = some arr → alookup n m.vars = some arr) ∧
    (∀ u ∈ k.kernel_unit, ∀ g, u.template.generate buf (some s) = .ok g →
      ∀ n, n ∈ akeys g.vars → n ∈ akeys m.vars) := by
  unfold Kernel.template at hm
  cases hk : kernelTemplates k.kernel_unit buf s with
  | error e =>
    rw [hk, ebind_error] at hm
    cases hm
  | ok gs =>
    rw [hk, ebind_ok] at hm
    injection hm with hm2
    subst hm2
    constructor
    · intro n arr h
      exact alookup_foldl_merge gs s n arr h
    · intro u hu g hg n hn
      exact mem_keys_foldl_merge_mem gs s g n
        (kernelTemplates_mem k.kernel_unit buf s gs hk u hu g hg) hn

/-- Witness for C10 at a one-unit kernel whose placeholder `p` is merged into
a state owning `q`. -/
theorem claim_C10_witness :
    kernelW.template buf0 stateW = .ok mergedW ∧
    alookup "q" stateW.vars = some (constArr (some 5)) ∧
    alookup "q" mergedW.vars = some (constArr (some 5)) ∧
    unitW.template.generate buf0 (some stateW) =
      .ok { coords := [],
            vars := [("p", { sizes := [], coords := [], attrs := [], data := buf0 })] } ∧
    "p" ∈ akeys mergedW.vars :=
  ⟨rfl, rfl,
    (claim_C10_template_state_precedence kernelW buf0 stateW mergedW rfl).1 "q"
      (constArr (some 5)) rfl,
    rfl,
    (claim_C10_template_state_precedence kernelW buf0 stateW mergedW rfl).2 unitW
      (List.Mem.head _)
      { coords := [],
        vars := [("p", { sizes := [], coords := [], attrs := [], data := buf0 })] }
      rfl "p" (List.Mem.head _)⟩

/-- Lookup `state[name]` succeeds exactly on a bound variable. -/
theorem getVar_eq (s : Dataset) (n : String) (a : DataArray)
    (h : alookup n s.vars = some a) : s.getVar n = .ok a := by
  unfold Dataset.getVar
  rw [h]

/-- C9: the biomass wrapper formats the recruited and mortality fields by
replacing every NaN with 0, truncates the timestep to an integer, reads the
initial condition only when present, and returns the explicit-Euler
integration, which satisfies B(0) = IC + dt*R(0) - dt*m(0)*IC with IC = 0 when
no initial biomass condition is in the state, and
B(t+1) = B(t) + dt*R(t+1) - dt*m(t+1)*B(t); the output values are `some`
everywhere, so input NaNs never propagate into the biomass output. -/
theorem claim_C9_biomass_euler (s : Dataset) (recA morA tsA : DataArray)
    (hr : alookup "recruited" (orderDataset s).vars = some recA)
    (hmo : alookup "mortality_field" (orderDataset s).vars = some morA)
    (hts : alookup "timestep" (orderDataset s).vars = some tsA) :
    biomassFn s = .ok (datasetOfVars [("biomass",
        biomassOutputArr recA morA
          ((alookup "initial_condition_biomass" (orderDataset s).vars).map
            (fun a => nanToNum a.data))
          ((pyInt (scalarValue tsA) : ℤ) : ℚ))]) ∧
    (∀ r m2 : Ix → ℚ, ∀ ic : Option (Ix → ℚ), ∀ dt : ℚ, ∀ ix : Ix,
      biomass_euler_explicite r m2 ic dt 0 ix =
        (ic.getD (fun _ => 0)) ix + dt * r (setTime ix 0)
          - dt * m2 (setTime ix 0) * ((ic.getD (fun _ => 0)) ix)) ∧
    (∀ r m2 : Ix → ℚ, ∀ ic : Option (Ix → ℚ), ∀ dt : ℚ, ∀ t : Nat, ∀ ix : Ix,
      biomass_euler_explicite r m2 ic dt (t + 1) ix =
        biomass_euler_explicite r m2 ic dt t ix + dt * r (setTime ix (t + 1))
          - dt * m2 (setTime ix (t + 1)) * biomass_euler_explicite r m2 ic dt t ix) ∧
    ((alookup "initial_condition_biomass" (orderDataset s).vars = none →
      ((alookup "initial_condition_biomass" (orderDataset s).vars).map
        (fun a => nanToNum a.data)) = none) ∧
    (∀ ix, ((biomassOutputArr recA morA
        ((alookup "initial_condition_biomass" (orderDataset s).vars).map
          (fun a => nanToNum a.data))
        ((pyInt (scalarValue tsA) : ℤ) : ℚ)).data ix).isSome = true)) := by
  refine ⟨?_, fun r m2 ic dt ix => rfl, fun r m2 ic dt t ix => rfl,
    fun h => by rw [h]; rfl, fun ix => rfl⟩
  unfold biomassFn
  simp only [getVar_eq (orderDataset s) "recruited" recA hr,
    getVar_eq (orderDataset s) "mortality_field" morA hmo,
    getVar_eq (orderDataset s) "timestep" tsA hts, ebind_ok]
  rfl

/-- Witness for C9 at the synthetic state (no initial condition present). -/
theorem claim_C9_witness :
    alookup "recruited" (orderDataset state4).vars = some (orderArr recruitedArr4) ∧
    alookup "mortality_field" (orderDataset state4).vars = some (orderArr mortalityArr4) ∧
    alookup "timestep" (orderDataset state4).vars = some (orderArr timestepArr4) ∧
    biomassFn state4 = .ok (datasetOfVars [("biomass",
      biomassOutputArr (orderArr recruitedArr4) (orderArr mortalityArr4)
        ((alookup "initial_condition_biomass" (orderDataset state4).vars).map
          (fun a => nanToNum a.data))
        ((pyInt (scalarValue (orderArr timestepArr4)) : ℤ) : ℚ))]) ∧
    (∀ ix, ((biomassOutputArr (orderArr recruitedArr4) (orderArr mortalityArr4)
        ((alookup "initial_condition_biomass" (orderDataset state4).vars).map
          (fun a => nanToNum a.data))
        ((pyInt (scalarValue (orderArr timestepArr4)) : ℤ) : ℚ)).data ix).isSome = true) :=
  ⟨rfl, rfl, rfl,
    (claim_C9_biomass_euler state4 (orderArr recruitedArr4) (orderArr mortalityArr4)
      (orderArr timestepArr4) rfl rfl rfl).1,
    (claim_C9_biomass_euler state4 (orderArr recruitedArr4) (orderArr mortalityArr4)
      (orderArr timestepArr4) rfl rfl rfl).2.2.2.2⟩

end Seapopym
